import Mathlib

/-
Verification of the credential lifecycle manager of the mcp-gdrive server.

The embedding models the authentication module (getAuthType,
authenticateWithServiceAccount, loadOAuthCredentialsQuietly,
loadCredentialsQuietly, getValidCredentials, authenticateAndSaveCredentials,
setupTokenRefresh) and the top-level startup path (ensureAuth, startServer).

External effects are made explicit:
 - the environment and the filesystem are a state record (SysState);
 - the network calls (token refresh, interactive authorization) are
   oracles stored in the state: an Option CredRecord that is the outcome
   the remote side would produce (none = the call fails / times out);
 - every operation returns, besides its value, the post-state and a Trace
   counting refresh attempts, disk writes, interactive-authorization
   launches, service-account authentication attempts and process exits.
-/

namespace McpGdrive

/-- Authentication modes, mirroring the AuthType enum of the source. -/
inductive AuthType
  | OAUTH
  | SERVICE_ACCOUNT
deriving DecidableEq

/-- A persisted OAuth credential record, as stored in the credential file
(.gdrive-server-credentials.json): access token, optional refresh token,
expiry as epoch milliseconds, granted scopes. -/
structure CredRecord where
  access_token : String
  refresh_token : Option String
  expiry_date : Int
  scope : String
deriving DecidableEq

/-- Content of the OAuth credential file when it exists: either a record
that JSON.parse accepts, or malformed text (JSON.parse throws). -/
inductive OAuthFileContent
  | valid (r : CredRecord)
  | malformed
deriving DecidableEq

/-- The environment, filesystem and remote-call oracles a run of the
authentication module observes. The three Option CredRecord oracles give
the outcome of the corresponding remote call (none = failure or timeout):
refreshResult for oauth2Client.refreshAccessToken in the quiet load,
interactiveResult for the authenticate call bounded by the timeout,
postAuthRefreshResult for auth.refreshAccessToken right after an
interactive authorization. -/
structure SysState where
  envUseServiceAccount : Option String
  envClientId : Option String
  envClientSecret : Option String
  serviceAccountFileExists : Bool
  oauthFile : Option OAuthFileContent
  now : Int
  refreshResult : Option CredRecord
  interactiveResult : Option CredRecord
  postAuthRefreshResult : Option CredRecord
deriving DecidableEq

/-- Counters of the observable side effects of one operation. -/
structure Trace where
  refreshAttempts : Nat
  diskWrites : Nat
  interactiveAttempts : Nat
  serviceAccountAttempts : Nat
  processExits : Nat
deriving DecidableEq

/-- The empty trace. -/
def Trace.zero : Trace := ⟨0, 0, 0, 0, 0⟩

/-- Componentwise sum of two traces. -/
def Trace.add (a b : Trace) : Trace :=
  ⟨a.refreshAttempts + b.refreshAttempts,
   a.diskWrites + b.diskWrites,
   a.interactiveAttempts + b.interactiveAttempts,
   a.serviceAccountAttempts + b.serviceAccountAttempts,
   a.processExits + b.processExits⟩

/-- An OAuth2 client object: constructor arguments and the credentials
installed by setCredentials. -/
structure OAuth2Client where
  clientId : Option String
  clientSecret : Option String
  credentials : Option CredRecord
deriving DecidableEq

/-- A credential handle usable for API calls: either an OAuth2 client or
a service-account GoogleAuth object. -/
inductive AuthHandle
  | oauth (c : OAuth2Client)
  | serviceAccount
deriving DecidableEq

/-- JavaScript truthiness of an optional string field (an absent field and
the empty string are falsy). -/
def jsTruthy : Option String → Bool
  | none => false
  | some t => t ≠ ""

/-- The 5-minute expiry threshold of loadOAuthCredentialsQuietly, in ms. -/
def fiveMinutes : Int := 5 * 60 * 1000

/-- Default timeout of authenticateWithTimeout, in ms. -/
def defaultAuthTimeoutMs : Nat := 30000

/-- Interval of the scheduled token refresh, in ms. -/
def refreshIntervalMs : Nat := 45 * 60 * 1000

/-- Result of an operation that may return an OAuth2 client. -/
structure QuietLoadResult where
  result : Option OAuth2Client
  state : SysState
  trace : Trace
deriving DecidableEq

/-- Result of an operation that may return a credential handle. -/
structure LoadResult where
  result : Option AuthHandle
  state : SysState
  trace : Trace
deriving DecidableEq

/-- getAuthType of the source: SERVICE_ACCOUNT when USE_SERVICE_ACCOUNT is
the string true, or when the service-account key file exists and the OAuth
credential file does not; OAUTH otherwise. -/
def getAuthType (s : SysState) : AuthType :=
  if s.envUseServiceAccount = some "true" then AuthType.SERVICE_ACCOUNT
  else if s.serviceAccountFileExists = true ∧ s.oauthFile.isSome = false then
    AuthType.SERVICE_ACCOUNT
  else AuthType.OAUTH

/-- authenticateWithServiceAccount of the source: null when the key file is
absent, otherwise a GoogleAuth handle (the constructor performs no I/O and
does not throw). -/
def authenticateWithServiceAccount (s : SysState) : Option AuthHandle :=
  if s.serviceAccountFileExists = true then some AuthHandle.serviceAccount
  else none

/-- loadOAuthCredentialsQuietly of the source: null when the file is absent
or unparseable; otherwise installs the saved record on a fresh OAuth2 client
built from CLIENT_ID and CLIENT_SECRET; when the record expires in under
five minutes and carries a (truthy) refresh token, attempts one refresh and,
on success, overwrites the file with the new record and installs it, and on
failure returns null leaving the file alone; otherwise returns the client
with the saved record. -/
def loadOAuthCredentialsQuietly (s : SysState) : QuietLoadResult :=
  match s.oauthFile with
  | none => ⟨none, s, Trace.zero⟩
  | some OAuthFileContent.malformed => ⟨none, s, Trace.zero⟩
  | some (OAuthFileContent.valid savedCreds) =>
      if savedCreds.expiry_date - s.now < fiveMinutes ∧
          jsTruthy savedCreds.refresh_token = true then
        match s.refreshResult with
        | some newCreds =>
            ⟨some ⟨s.envClientId, s.envClientSecret, some newCreds⟩,
             { s with oauthFile := some (OAuthFileContent.valid newCreds) },
             ⟨1, 1, 0, 0, 0⟩⟩
        | none => ⟨none, s, ⟨1, 0, 0, 0, 0⟩⟩
      else ⟨some ⟨s.envClientId, s.envClientSecret, some savedCreds⟩, s, Trace.zero⟩

/-- loadCredentialsQuietly of the source: dispatches on getAuthType to the
service-account authenticator or the quiet OAuth load. -/
def loadCredentialsQuietly (s : SysState) : LoadResult :=
  match getAuthType s with
  | AuthType.SERVICE_ACCOUNT =>
      ⟨authenticateWithServiceAccount s, s, ⟨0, 0, 0, 1, 0⟩⟩
  | AuthType.OAUTH =>
      ⟨(loadOAuthCredentialsQuietly s).result.map AuthHandle.oauth,
       (loadOAuthCredentialsQuietly s).state,
       (loadOAuthCredentialsQuietly s).trace⟩

/-- authenticateWithTimeout of the source: races the interactive
authorization against the timeout; any error or timeout is caught and
yields null. The oracle interactiveResult is the outcome. -/
def authenticateWithTimeout (s : SysState) : Option OAuth2Client :=
  match s.interactiveResult with
  | none => none
  | some creds => some ⟨none, none, some creds⟩

/-- authenticateAndSaveCredentials of the source. When the interactive flow
fails, auth is null and the refresh call inside the try block throws before
any refresh is attempted; the catch returns auth, which is null. When the
flow succeeds, one refresh is attempted on the handle: on success the new
record is written to the credential file and installed; on failure the
catch returns the original handle without writing. -/
def authenticateAndSaveCredentials (s : SysState) : LoadResult :=
  match authenticateWithTimeout s with
  | none =>
      ⟨none, s, ⟨0, 0, 1, 0, 0⟩⟩
  | some auth =>
      match s.postAuthRefreshResult with
      | some credentials =>
          ⟨some (AuthHandle.oauth { auth with credentials := some credentials }),
           { s with oauthFile := some (OAuthFileContent.valid credentials) },
           ⟨1, 1, 1, 0, 0⟩⟩
      | none =>
          ⟨some (AuthHandle.oauth auth), s, ⟨1, 0, 1, 0, 0⟩⟩

/-- getValidCredentials of the source: unless forceAuth, first the quiet
load, returned when non-null; then, when the auth type is SERVICE_ACCOUNT,
one more service-account attempt; otherwise the interactive flow. -/
def getValidCredentials (forceAuth : Bool) (s : SysState) : LoadResult :=
  if forceAuth = false then
    match (loadCredentialsQuietly s).result with
    | some a =>
        ⟨some a, (loadCredentialsQuietly s).state, (loadCredentialsQuietly s).trace⟩
    | none =>
        if getAuthType (loadCredentialsQuietly s).state = AuthType.SERVICE_ACCOUNT then
          ⟨authenticateWithServiceAccount (loadCredentialsQuietly s).state,
           (loadCredentialsQuietly s).state,
           Trace.add (loadCredentialsQuietly s).trace ⟨0, 0, 0, 1, 0⟩⟩
        else
          ⟨(authenticateAndSaveCredentials (loadCredentialsQuietly s).state).result,
           (authenticateAndSaveCredentials (loadCredentialsQuietly s).state).state,
           Trace.add (loadCredentialsQuietly s).trace
             (authenticateAndSaveCredentials (loadCredentialsQuietly s).state).trace⟩
  else
    if getAuthType s = AuthType.SERVICE_ACCOUNT then
      ⟨authenticateWithServiceAccount s, s, ⟨0, 0, 0, 1, 0⟩⟩
    else
      authenticateAndSaveCredentials s

/-- Outcome of one tick of the scheduled token refresh: either the quiet
load produced a handle and google.options installed it as the process-wide
default auth, or it produced null and the tick only logged. -/
inductive TickOutcome
  | installedAuth (a : AuthHandle)
  | skipped
deriving DecidableEq

/-- Result of one tick of the scheduled token refresh. -/
structure TickResult where
  outcome : TickOutcome
  state : SysState
  trace : Trace
deriving DecidableEq

/-- The body of the setInterval callback of setupTokenRefresh: calls
loadCredentialsQuietly; on a handle installs it via google.options, on null
logs and does nothing; errors are caught inside the callback. -/
def tokenRefreshTick (s : SysState) : TickResult :=
  match (loadCredentialsQuietly s).result with
  | some a =>
      ⟨TickOutcome.installedAuth a, (loadCredentialsQuietly s).state,
       (loadCredentialsQuietly s).trace⟩
  | none =>
      ⟨TickOutcome.skipped, (loadCredentialsQuietly s).state,
       (loadCredentialsQuietly s).trace⟩

/-- ensureAuth of the source: getValidCredentials with the default
forceAuth = false, then google.options with whatever came back (also when
it is null; google.options only stores the value and never throws). -/
def ensureAuth (s : SysState) : LoadResult :=
  getValidCredentials false s

/-- Outcome of startServer: either the server started (recording the auth
handle installed by ensureAuth, possibly none, and whether the refresh
interval was scheduled), or the catch block ran process.exit(1). -/
inductive StartupOutcome
  | started (installedAuth : Option AuthHandle) (refreshTimerScheduled : Bool)
  | fatalExit
deriving DecidableEq

/-- Result of startServer. -/
structure StartupResult where
  outcome : StartupOutcome
  state : SysState
  trace : Trace
deriving DecidableEq

/-- startServer of the source: reads getAuthType for logging, awaits
ensureAuth, connects the transport, and schedules the token refresh when
the auth type is OAUTH. Every failure of the authentication paths is
swallowed into a null handle before reaching startServer, so the catch
block with process.exit(1) is not reached from them; the transport is an
external collaborator modelled as succeeding. -/
def startServer (s : SysState) : StartupResult :=
  ⟨StartupOutcome.started (ensureAuth s).result
     (decide (getAuthType s = AuthType.OAUTH)),
   (ensureAuth s).state, (ensureAuth s).trace⟩

/- Concrete records and states used by witnesses and counterexamples. -/

/-- A state with nothing configured: no env vars, no files, all remote
calls failing. -/
def baseState : SysState :=
  ⟨none, none, none, false, none, 0, none, none, none⟩

/-- A credential record far from expiry at time 0. -/
def rFresh : CredRecord := ⟨"at0", some "rt0", 1000000000, "scopeA"⟩

/-- A credential record already expired at time 0, with a refresh token. -/
def rStale : CredRecord := ⟨"at1", some "rt1", 100, "scopeA"⟩

/-- A credential record already expired at time 0, without refresh token. -/
def rStaleNoToken : CredRecord := ⟨"at2", none, 100, "scopeA"⟩

/-- The record a successful refresh returns. -/
def rNew : CredRecord := ⟨"at3", some "rt3", 2000000000, "scopeA"⟩

/-- The record a successful interactive authorization returns. -/
def rInteractive : CredRecord := ⟨"at4", none, 500, "scopeA"⟩

/-- A state whose credential file holds a fresh record. -/
def sFresh : SysState :=
  { baseState with oauthFile := some (OAuthFileContent.valid rFresh) }

/-- A state whose credential file holds an expired record and whose
refresh oracle succeeds. -/
def sRefreshOk : SysState :=
  { baseState with
      oauthFile := some (OAuthFileContent.valid rStale)
      refreshResult := some rNew }

/-- A state whose credential file holds an expired record and whose
refresh oracle fails. -/
def sRefreshFail : SysState :=
  { baseState with oauthFile := some (OAuthFileContent.valid rStale) }

/-- A state whose credential file holds an expired record without a
refresh token. -/
def sNoToken : SysState :=
  { baseState with oauthFile := some (OAuthFileContent.valid rStaleNoToken) }

/-- A state where interactive authorization succeeds but the post-auth
refresh fails. -/
def sPostAuthFail : SysState :=
  { baseState with interactiveResult := some rInteractive }

/-- A state where USE_SERVICE_ACCOUNT is forced while no service-account
key file exists. -/
def sForcedNoKeyfile : SysState :=
  { baseState with envUseServiceAccount := some "true" }

/- Helper lemmas shared between claims: one equation per branch of the
source functions, then facts about traces. -/

/-- Equation for the quiet OAuth load when the credential file is absent. -/
theorem loadOAuthQuietly_no_file (s : SysState) (hf : s.oauthFile = none) :
    loadOAuthCredentialsQuietly s = ⟨none, s, Trace.zero⟩ := by
  unfold loadOAuthCredentialsQuietly; rw [hf]

/-- Equation for the quiet OAuth load when the file is malformed. -/
theorem loadOAuthQuietly_malformed (s : SysState)
    (hf : s.oauthFile = some OAuthFileContent.malformed) :
    loadOAuthCredentialsQuietly s = ⟨none, s, Trace.zero⟩ := by
  unfold loadOAuthCredentialsQuietly; rw [hf]

/-- Equation for the quiet OAuth load when the record needs no refresh. -/
theorem loadOAuthQuietly_no_refresh (s : SysState) (r : CredRecord)
    (hf : s.oauthFile = some (OAuthFileContent.valid r))
    (hc : ¬ (r.expiry_date - s.now < fiveMinutes ∧ jsTruthy r.refresh_token = true)) :
    loadOAuthCredentialsQuietly s =
      ⟨some ⟨s.envClientId, s.envClientSecret, some r⟩, s, Trace.zero⟩ := by
  unfold loadOAuthCredentialsQuietly; rw [hf]; simp only [if_neg hc]

/-- Equation for the quiet OAuth load when a needed refresh succeeds. -/
theorem loadOAuthQuietly_refresh_ok (s : SysState) (r nc : CredRecord)
    (hf : s.oauthFile = some (OAuthFileContent.valid r))
    (hc : r.expiry_date - s.now < fiveMinutes ∧ jsTruthy r.refresh_token = true)
    (hr : s.refreshResult = some nc) :
    loadOAuthCredentialsQuietly s =
      ⟨some ⟨s.envClientId, s.envClientSecret, some nc⟩,
       { s with oauthFile := some (OAuthFileContent.valid nc) },
       ⟨1, 1, 0, 0, 0⟩⟩ := by
  unfold loadOAuthCredentialsQuietly; rw [hf]; simp only [if_pos hc]; rw [hr]

/-- Equation for the quiet OAuth load when a needed refresh fails. -/
theorem loadOAuthQuietly_refresh_failed (s : SysState) (r : CredRecord)
    (hf : s.oauthFile = some (OAuthFileContent.valid r))
    (hc : r.expiry_date - s.now < fiveMinutes ∧ jsTruthy r.refresh_token = true)
    (hr : s.refreshResult = none) :
    loadOAuthCredentialsQuietly s = ⟨none, s, ⟨1, 0, 0, 0, 0⟩⟩ := by
  unfold loadOAuthCredentialsQuietly; rw [hf]; simp only [if_pos hc]; rw [hr]

/-- Equation for the quiet load in SERVICE_ACCOUNT mode. -/
theorem loadCredentialsQuietly_sa (s : SysState)
    (hA : getAuthType s = AuthType.SERVICE_ACCOUNT) :
    loadCredentialsQuietly s =
      ⟨authenticateWithServiceAccount s, s, ⟨0, 0, 0, 1, 0⟩⟩ := by
  unfold loadCredentialsQuietly; rw [hA]

/-- Equation for the quiet load in OAUTH mode. -/
theorem loadCredentialsQuietly_oauth (s : SysState)
    (hA : getAuthType s = AuthType.OAUTH) :
    loadCredentialsQuietly s =
      ⟨(loadOAuthCredentialsQuietly s).result.map AuthHandle.oauth,
       (loadOAuthCredentialsQuietly s).state,
       (loadOAuthCredentialsQuietly s).trace⟩ := by
  unfold loadCredentialsQuietly; rw [hA]

/-- Equation for authenticateAndSaveCredentials when the interactive flow
fails or times out. -/
theorem authSave_timeout (s : SysState) (hi : s.interactiveResult = none) :
    authenticateAndSaveCredentials s = ⟨none, s, ⟨0, 0, 1, 0, 0⟩⟩ := by
  unfold authenticateAndSaveCredentials authenticateWithTimeout; rw [hi]

/-- Equation for authenticateAndSaveCredentials when the interactive flow
succeeds and the post-auth refresh succeeds. -/
theorem authSave_refresh_ok (s : SysState) (c nc : CredRecord)
    (hi : s.interactiveResult = some c)
    (hp : s.postAuthRefreshResult = some nc) :
    authenticateAndSaveCredentials s =
      ⟨some (AuthHandle.oauth ⟨none, none, some nc⟩),
       { s with oauthFile := some (OAuthFileContent.valid nc) },
       ⟨1, 1, 1, 0, 0⟩⟩ := by
  unfold authenticateAndSaveCredentials authenticateWithTimeout; rw [hi, hp]

/-- Equation for authenticateAndSaveCredentials when the interactive flow
succeeds and the post-auth refresh fails. -/
theorem authSave_refresh_failed (s : SysState) (c : CredRecord)
    (hi : s.interactiveResult = some c)
    (hp : s.postAuthRefreshResult = none) :
    authenticateAndSaveCredentials s =
      ⟨some (AuthHandle.oauth ⟨none, none, some c⟩), s, ⟨1, 0, 1, 0, 0⟩⟩ := by
  unfold authenticateAndSaveCredentials authenticateWithTimeout; rw [hi, hp]

/-- When the quiet OAuth load returns null, the state is unchanged. -/
theorem loadOAuthQuietly_none_state (s : SysState)
    (h : (loadOAuthCredentialsQuietly s).result = none) :
    (loadOAuthCredentialsQuietly s).state = s := by
  rcases hf : s.oauthFile with _ | (r | _)
  · rw [loadOAuthQuietly_no_file s hf]
  · by_cases hc : (r.expiry_date - s.now < fiveMinutes ∧ jsTruthy r.refresh_token = true)
    · rcases hr : s.refreshResult with _ | nc
      · rw [loadOAuthQuietly_refresh_failed s r hf hc hr]
      · rw [loadOAuthQuietly_refresh_ok s r nc hf hc hr] at h; simp at h
    · rw [loadOAuthQuietly_no_refresh s r hf hc] at h; simp at h
  · rw [loadOAuthQuietly_malformed s hf]

/-- When the quiet load returns null, the state is unchanged. -/
theorem loadCredentialsQuietly_none_state (s : SysState)
    (h : (loadCredentialsQuietly s).result = none) :
    (loadCredentialsQuietly s).state = s := by
  rcases hA : getAuthType s with _ | _
  · rw [loadCredentialsQuietly_oauth s hA] at h ⊢
    simp only [Option.map_eq_none'] at h
    exact loadOAuthQuietly_none_state s h
  · rw [loadCredentialsQuietly_sa s hA]

/-- The quiet load never launches interactive authorization and never
exits the process. -/
theorem loadCredentialsQuietly_trace_quiet (s : SysState) :
    (loadCredentialsQuietly s).trace.interactiveAttempts = 0 ∧
    (loadCredentialsQuietly s).trace.processExits = 0 := by
  rcases hA : getAuthType s with _ | _
  · rw [loadCredentialsQuietly_oauth s hA]
    rcases hf : s.oauthFile with _ | (r | _)
    · rw [loadOAuthQuietly_no_file s hf]; exact ⟨rfl, rfl⟩
    · by_cases hc : (r.expiry_date - s.now < fiveMinutes ∧ jsTruthy r.refresh_token = true)
      · rcases hr : s.refreshResult with _ | nc
        · rw [loadOAuthQuietly_refresh_failed s r hf hc hr]; exact ⟨rfl, rfl⟩
        · rw [loadOAuthQuietly_refresh_ok s r nc hf hc hr]; exact ⟨rfl, rfl⟩
      · rw [loadOAuthQuietly_no_refresh s r hf hc]; exact ⟨rfl, rfl⟩
    · rw [loadOAuthQuietly_malformed s hf]; exact ⟨rfl, rfl⟩
  · rw [loadCredentialsQuietly_sa s hA]; exact ⟨rfl, rfl⟩

/-- authenticateAndSaveCredentials launches the interactive flow exactly
once and never exits the process. -/
theorem authSave_trace (s : SysState) :
    (authenticateAndSaveCredentials s).trace.interactiveAttempts = 1 ∧
    (authenticateAndSaveCredentials s).trace.processExits = 0 := by
  rcases hi : s.interactiveResult with _ | c
  · rw [authSave_timeout s hi]; exact ⟨rfl, rfl⟩
  · rcases hp : s.postAuthRefreshResult with _ | nc
    · rw [authSave_refresh_failed s c hi hp]; exact ⟨rfl, rfl⟩
    · rw [authSave_refresh_ok s c nc hi hp]; exact ⟨rfl, rfl⟩

/-- Equation for getValidCredentials without force when the quiet load
yields a handle. -/
theorem getValid_eq_quiet (s : SysState) (a : AuthHandle)
    (hq : (loadCredentialsQuietly s).result = some a) :
    getValidCredentials false s =
      ⟨some a, (loadCredentialsQuietly s).state,
       (loadCredentialsQuietly s).trace⟩ := by
  unfold getValidCredentials
  rw [if_pos rfl, hq]

/-- Equation for getValidCredentials without force when the quiet load is
null and the auth type is SERVICE_ACCOUNT. -/
theorem getValid_eq_sa_retry (s : SysState)
    (hq : (loadCredentialsQuietly s).result = none)
    (hA : getAuthType s = AuthType.SERVICE_ACCOUNT) :
    getValidCredentials false s =
      ⟨authenticateWithServiceAccount s, s,
       Trace.add (loadCredentialsQuietly s).trace ⟨0, 0, 0, 1, 0⟩⟩ := by
  have hst := loadCredentialsQuietly_none_state s hq
  unfold getValidCredentials
  rw [if_pos rfl, hq, hst, if_pos hA]

/-- Equation for getValidCredentials without force when the quiet load is
null and the auth type is OAUTH. -/
theorem getValid_eq_oauth_fallback (s : SysState)
    (hq : (loadCredentialsQuietly s).result = none)
    (hA : getAuthType s = AuthType.OAUTH) :
    getValidCredentials false s =
      ⟨(authenticateAndSaveCredentials s).result,
       (authenticateAndSaveCredentials s).state,
       Trace.add (loadCredentialsQuietly s).trace
         (authenticateAndSaveCredentials s).trace⟩ := by
  have hst := loadCredentialsQuietly_none_state s hq
  unfold getValidCredentials
  rw [if_pos rfl, hq, hst, if_neg (by simp [hA])]

/- Claim theorems. -/

/-- C1: getAuthType returns SERVICE_ACCOUNT exactly when the environment
variable USE_SERVICE_ACCOUNT is set to the string true, or the
service-account key file exists and the OAuth credential file does not
exist; in every other state it returns OAUTH. -/
theorem getAuthType_service_account_characterization (s : SysState) :
    (getAuthType s = AuthType.SERVICE_ACCOUNT ↔
      (s.envUseServiceAccount = some "true" ∨
        (s.serviceAccountFileExists = true ∧ s.oauthFile = none))) ∧
    (getAuthType s = AuthType.OAUTH ↔
      ¬ (s.envUseServiceAccount = some "true" ∨
        (s.serviceAccountFileExists = true ∧ s.oauthFile = none))) := by
  rcases s with ⟨e, ci, cs, sa, f, n, rr, ir, pr⟩
  by_cases h1 : e = some "true" <;> cases sa <;> cases f <;>
    simp [getAuthType, h1]

/-- C2 counterexample: with USE_SERVICE_ACCOUNT set to the string true and
no service-account key file, getAuthType returns SERVICE_ACCOUNT, not
OAUTH, so the claim that a missing key file always gives OAUTH is false. -/
theorem getAuthType_forced_without_keyfile_not_oauth :
    sForcedNoKeyfile.serviceAccountFileExists = false ∧
    getAuthType sForcedNoKeyfile = AuthType.SERVICE_ACCOUNT ∧
    getAuthType sForcedNoKeyfile ≠ AuthType.OAUTH := by decide

/-- C2 amended: for every state in which the service-account key file does
not exist and USE_SERVICE_ACCOUNT is not set to the string true, getAuthType
returns OAUTH. -/
theorem getAuthType_no_keyfile_unforced_oauth (s : SysState)
    (hfile : s.serviceAccountFileExists = false)
    (henv : s.envUseServiceAccount ≠ some "true") :
    getAuthType s = AuthType.OAUTH := by
  unfold getAuthType
  rw [if_neg henv, if_neg (by simp [hfile])]

/-- Witness for the amended C2 at a concrete state. -/
theorem getAuthType_no_keyfile_unforced_oauth_witness :
    getAuthType baseState = AuthType.OAUTH :=
  getAuthType_no_keyfile_unforced_oauth baseState (by decide) (by decide)

/-- C3: with a persisted record whose expiry is under five minutes away and
which carries a refresh token, the quiet OAuth load performs exactly one
refresh attempt and, the refresh succeeding, overwrites the credential file
with the refreshed record (a subsequent read of the file yields the
refreshed fields) and returns a handle carrying the refreshed
credentials. -/
theorem loadOAuthQuietly_expiring_refresh_success (s : SysState)
    (r nc : CredRecord)
    (hfile : s.oauthFile = some (OAuthFileContent.valid r))
    (hexp : r.expiry_date - s.now < fiveMinutes)
    (htok : jsTruthy r.refresh_token = true)
    (href : s.refreshResult = some nc) :
    (loadOAuthCredentialsQuietly s).trace.refreshAttempts = 1 ∧
    (loadOAuthCredentialsQuietly s).state.oauthFile =
      some (OAuthFileContent.valid nc) ∧
    (loadOAuthCredentialsQuietly s).result =
      some ⟨s.envClientId, s.envClientSecret, some nc⟩ := by
  rw [loadOAuthQuietly_refresh_ok s r nc hfile ⟨hexp, htok⟩ href]
  exact ⟨rfl, rfl, rfl⟩

/-- Witness for C3 at a concrete state. -/
theorem loadOAuthQuietly_expiring_refresh_success_witness :
    (loadOAuthCredentialsQuietly sRefreshOk).trace.refreshAttempts = 1 ∧
    (loadOAuthCredentialsQuietly sRefreshOk).state.oauthFile =
      some (OAuthFileContent.valid rNew) ∧
    (loadOAuthCredentialsQuietly sRefreshOk).result =
      some ⟨sRefreshOk.envClientId, sRefreshOk.envClientSecret, some rNew⟩ :=
  loadOAuthQuietly_expiring_refresh_success sRefreshOk rStale rNew (by rfl)
    (by decide) (by decide) (by rfl)

/-- C4: when the quiet OAuth load attempts a refresh and the refresh fails,
it returns null and performs no write, the state (and so the on-disk file)
being unchanged. -/
theorem loadOAuthQuietly_refresh_failure_no_write (s : SysState)
    (r : CredRecord)
    (hfile : s.oauthFile = some (OAuthFileContent.valid r))
    (hexp : r.expiry_date - s.now < fiveMinutes)
    (htok : jsTruthy r.refresh_token = true)
    (href : s.refreshResult = none) :
    (loadOAuthCredentialsQuietly s).result = none ∧
    (loadOAuthCredentialsQuietly s).state = s ∧
    (loadOAuthCredentialsQuietly s).trace.diskWrites = 0 := by
  rw [loadOAuthQuietly_refresh_failed s r hfile ⟨hexp, htok⟩ href]
  exact ⟨rfl, rfl, rfl⟩

/-- Witness for C4 at a concrete state. -/
theorem loadOAuthQuietly_refresh_failure_no_write_witness :
    (loadOAuthCredentialsQuietly sRefreshFail).result = none ∧
    (loadOAuthCredentialsQuietly sRefreshFail).state = sRefreshFail ∧
    (loadOAuthCredentialsQuietly sRefreshFail).trace.diskWrites = 0 :=
  loadOAuthQuietly_refresh_failure_no_write sRefreshFail rStale (by rfl)
    (by decide) (by decide) (by rfl)

/-- C5: getValidCredentials without forceAuth first runs the quiet load and
returns its result when non-null; when the quiet load is null and the auth
type is SERVICE_ACCOUNT it makes exactly one further service-account
attempt and never launches the interactive flow; when the auth type is
OAUTH it falls back to the interactive authorization flow (exactly one
launch). -/
theorem getValidCredentials_unforced_dispatch (s : SysState) :
    ((loadCredentialsQuietly s).result.isSome = true →
      getValidCredentials false s = loadCredentialsQuietly s) ∧
    ((loadCredentialsQuietly s).result = none →
      getAuthType s = AuthType.SERVICE_ACCOUNT →
      getValidCredentials false s =
        ⟨authenticateWithServiceAccount s, s,
         Trace.add (loadCredentialsQuietly s).trace ⟨0, 0, 0, 1, 0⟩⟩ ∧
      (getValidCredentials false s).trace.interactiveAttempts = 0) ∧
    ((loadCredentialsQuietly s).result = none →
      getAuthType s = AuthType.OAUTH →
      (getValidCredentials false s).result =
        (authenticateAndSaveCredentials s).result ∧
      (getValidCredentials false s).trace.interactiveAttempts = 1) := by
  refine ⟨?_, ?_, ?_⟩
  · intro h
    rcases ho : (loadCredentialsQuietly s).result with _ | a
    · rw [ho] at h; simp at h
    · rw [getValid_eq_quiet s a ho, ← ho]
  · intro hq hA
    refine ⟨getValid_eq_sa_retry s hq hA, ?_⟩
    rw [getValid_eq_sa_retry s hq hA]
    show (Trace.add (loadCredentialsQuietly s).trace
      ⟨0, 0, 0, 1, 0⟩).interactiveAttempts = 0
    unfold Trace.add
    simp [(loadCredentialsQuietly_trace_quiet s).1]
  · intro hq hA
    rw [getValid_eq_oauth_fallback s hq hA]
    refine ⟨rfl, ?_⟩
    show (Trace.add (loadCredentialsQuietly s).trace
      (authenticateAndSaveCredentials s).trace).interactiveAttempts = 1
    unfold Trace.add
    simp [(loadCredentialsQuietly_trace_quiet s).1, (authSave_trace s).1]

/-- Witness for C5 at a concrete state whose quiet load succeeds. -/
theorem getValidCredentials_unforced_dispatch_witness :
    getValidCredentials false sFresh = loadCredentialsQuietly sFresh :=
  (getValidCredentials_unforced_dispatch sFresh).1 (by decide)

/-- C6 counterexample: at a state where the quiet load is null and the
interactive authorization flow times out, the authentication attempt
yields null, and yet startServer completes startup (it installs the null
handle and schedules the refresh timer) instead of surfacing a fatal
startup error: the catch with process.exit(1) is not reached. -/
theorem startServer_interactive_timeout_not_fatal :
    (authenticateAndSaveCredentials baseState).result = none ∧
    (startServer baseState).outcome = StartupOutcome.started none true ∧
    (startServer baseState).outcome ≠ StartupOutcome.fatalExit ∧
    (startServer baseState).trace.processExits = 0 := by decide

/-- C6 amended: when the quiet load yields nothing, the auth type is OAUTH
and the interactive flow exceeds its timeout or errors, the authentication
attempt yields null; startServer then installs the null handle and
completes startup without exiting the process (no fatal startup error is
surfaced on this path). -/
theorem startServer_interactive_failure_continues (s : SysState)
    (hA : getAuthType s = AuthType.OAUTH)
    (hq : (loadCredentialsQuietly s).result = none)
    (hint : s.interactiveResult = none) :
    (getValidCredentials false s).result = none ∧
    (startServer s).outcome = StartupOutcome.started none true ∧
    (startServer s).trace.processExits = 0 := by
  have hgv := getValid_eq_oauth_fallback s hq hA
  have hsave := authSave_timeout s hint
  refine ⟨?_, ?_, ?_⟩
  · rw [hgv, hsave]
  · unfold startServer ensureAuth
    rw [hgv, hsave, hA]
    rfl
  · unfold startServer ensureAuth
    rw [hgv, hsave]
    show (Trace.add (loadCredentialsQuietly s).trace ⟨0, 0, 1, 0, 0⟩).processExits = 0
    unfold Trace.add
    simp [(loadCredentialsQuietly_trace_quiet s).2]

/-- Witness for the amended C6 at a concrete state. -/
theorem startServer_interactive_failure_continues_witness :
    (getValidCredentials false baseState).result = none ∧
    (startServer baseState).outcome = StartupOutcome.started none true ∧
    (startServer baseState).trace.processExits = 0 :=
  startServer_interactive_failure_continues baseState (by decide) (by decide)
    (by decide)

/-- C7: after a successful interactive authorization,
authenticateAndSaveCredentials attempts exactly one token refresh; when
that post-auth refresh fails it still returns the original non-null
credential handle, and the credential file is not written on that failure
path (state unchanged). -/
theorem authSave_refresh_failure_returns_original (s : SysState)
    (c : CredRecord)
    (hint : s.interactiveResult = some c) :
    (authenticateAndSaveCredentials s).trace.refreshAttempts = 1 ∧
    (s.postAuthRefreshResult = none →
      (authenticateAndSaveCredentials s).result =
        some (AuthHandle.oauth ⟨none, none, some c⟩) ∧
      (authenticateAndSaveCredentials s).trace.diskWrites = 0 ∧
      (authenticateAndSaveCredentials s).state = s) := by
  constructor
  · rcases hp : s.postAuthRefreshResult with _ | nc
    · rw [authSave_refresh_failed s c hint hp]
    · rw [authSave_refresh_ok s c nc hint hp]
  · intro hp
    rw [authSave_refresh_failed s c hint hp]
    exact ⟨rfl, rfl, rfl⟩

/-- Witness for C7 at a concrete state. -/
theorem authSave_refresh_failure_returns_original_witness :
    (authenticateAndSaveCredentials sPostAuthFail).trace.refreshAttempts = 1 ∧
    (authenticateAndSaveCredentials sPostAuthFail).result =
      some (AuthHandle.oauth ⟨none, none, some rInteractive⟩) ∧
    (authenticateAndSaveCredentials sPostAuthFail).trace.diskWrites = 0 :=
  ⟨(authSave_refresh_failure_returns_original sPostAuthFail rInteractive
      (by rfl)).1,
   ((authSave_refresh_failure_returns_original sPostAuthFail rInteractive
      (by rfl)).2 (by rfl)).1,
   ((authSave_refresh_failure_returns_original sPostAuthFail rInteractive
      (by rfl)).2 (by rfl)).2.1⟩

/-- C8: a tick of the scheduled token refresh (interval 45 minutes in ms)
calls only the quiet load: a non-null result is installed via
google.options as the process-wide default auth, a null result only logs
and skips, leaving the state unchanged; no tick launches interactive
authorization and no tick exits the process. -/
theorem tokenRefreshTick_quiet_only (s : SysState) :
    (tokenRefreshTick s).trace.interactiveAttempts = 0 ∧
    (tokenRefreshTick s).trace.processExits = 0 ∧
    (∀ a, (loadCredentialsQuietly s).result = some a →
      (tokenRefreshTick s).outcome = TickOutcome.installedAuth a) ∧
    ((loadCredentialsQuietly s).result = none →
      (tokenRefreshTick s).outcome = TickOutcome.skipped ∧
      (tokenRefreshTick s).state = s) ∧
    refreshIntervalMs = 45 * 60 * 1000 := by
  have htr : (tokenRefreshTick s).trace = (loadCredentialsQuietly s).trace := by
    unfold tokenRefreshTick
    rcases ho : (loadCredentialsQuietly s).result with _ | a <;> rfl
  refine ⟨?_, ?_, ?_, ?_, rfl⟩
  · rw [htr]; exact (loadCredentialsQuietly_trace_quiet s).1
  · rw [htr]; exact (loadCredentialsQuietly_trace_quiet s).2
  · intro a ha
    unfold tokenRefreshTick
    rw [ha]
  · intro ho
    unfold tokenRefreshTick
    rw [ho]
    exact ⟨rfl, loadCredentialsQuietly_none_state s ho⟩

/-- Witness for C8 at a concrete state whose quiet load succeeds. -/
theorem tokenRefreshTick_quiet_only_witness :
    (tokenRefreshTick sFresh).outcome =
      TickOutcome.installedAuth (AuthHandle.oauth ⟨none, none, some rFresh⟩) ∧
    (tokenRefreshTick sFresh).trace.interactiveAttempts = 0 :=
  ⟨(tokenRefreshTick_quiet_only sFresh).2.2.1
      (AuthHandle.oauth ⟨none, none, some rFresh⟩) (by decide),
   (tokenRefreshTick_quiet_only sFresh).1⟩

/-- C9: a persisted record whose expiry is more than five minutes in the
future is returned as-is by the quiet OAuth load with no refresh attempt
and no disk write, the state unchanged; a second call on the resulting
state returns the identical result (idempotence, no further writes). -/
theorem loadOAuthQuietly_fresh_idempotent (s : SysState) (r : CredRecord)
    (hfile : s.oauthFile = some (OAuthFileContent.valid r))
    (hexp : fiveMinutes < r.expiry_date - s.now) :
    (loadOAuthCredentialsQuietly s).trace.refreshAttempts = 0 ∧
    (loadOAuthCredentialsQuietly s).trace.diskWrites = 0 ∧
    (loadOAuthCredentialsQuietly s).result =
      some ⟨s.envClientId, s.envClientSecret, some r⟩ ∧
    (loadOAuthCredentialsQuietly s).state = s ∧
    loadOAuthCredentialsQuietly (loadOAuthCredentialsQuietly s).state =
      loadOAuthCredentialsQuietly s := by
  have hc : ¬ (r.expiry_date - s.now < fiveMinutes ∧
      jsTruthy r.refresh_token = true) := by
    intro h
    exact absurd h.1 (not_lt.mpr (le_of_lt hexp))
  have heq := loadOAuthQuietly_no_refresh s r hfile hc
  refine ⟨?_, ?_, ?_, ?_, ?_⟩
  · rw [heq]; rfl
  · rw [heq]; rfl
  · rw [heq]
  · rw [heq]
  · rw [heq]; exact heq

/-- Witness for C9 at a concrete state. -/
theorem loadOAuthQuietly_fresh_idempotent_witness :
    (loadOAuthCredentialsQuietly sFresh).trace.refreshAttempts = 0 ∧
    (loadOAuthCredentialsQuietly sFresh).result =
      some ⟨sFresh.envClientId, sFresh.envClientSecret, some rFresh⟩ ∧
    loadOAuthCredentialsQuietly (loadOAuthCredentialsQuietly sFresh).state =
      loadOAuthCredentialsQuietly sFresh :=
  ⟨(loadOAuthQuietly_fresh_idempotent sFresh rFresh (by rfl) (by decide)).1,
   (loadOAuthQuietly_fresh_idempotent sFresh rFresh (by rfl) (by decide)).2.2.1,
   (loadOAuthQuietly_fresh_idempotent sFresh rFresh (by rfl) (by decide)).2.2.2.2⟩

/-- C10: a persisted record whose expiry is under five minutes away (or
past) but which carries no refresh token is returned as-is by the quiet
OAuth load: a non-null handle built from the stale record, no refresh
attempt, no disk write, state unchanged. -/
theorem loadOAuthQuietly_expiring_no_token (s : SysState) (r : CredRecord)
    (hfile : s.oauthFile = some (OAuthFileContent.valid r))
    (hexp : r.expiry_date - s.now < fiveMinutes)
    (htok : r.refresh_token = none) :
    (loadOAuthCredentialsQuietly s).result =
      some ⟨s.envClientId, s.envClientSecret, some r⟩ ∧
    (loadOAuthCredentialsQuietly s).trace.refreshAttempts = 0 ∧
    (loadOAuthCredentialsQuietly s).trace.diskWrites = 0 ∧
    (loadOAuthCredentialsQuietly s).state = s := by
  have hc : ¬ (r.expiry_date - s.now < fiveMinutes ∧
      jsTruthy r.refresh_token = true) := by
    intro h
    have h2 := h.2
    rw [htok] at h2
    simp [jsTruthy] at h2
  rw [loadOAuthQuietly_no_refresh s r hfile hc]
  exact ⟨rfl, rfl, rfl, rfl⟩

/-- Witness for C10 at a concrete state. -/
theorem loadOAuthQuietly_expiring_no_token_witness :
    (loadOAuthCredentialsQuietly sNoToken).result =
      some ⟨sNoToken.envClientId, sNoToken.envClientSecret, some rStaleNoToken⟩ ∧
    (loadOAuthCredentialsQuietly sNoToken).trace.refreshAttempts = 0 ∧
    (loadOAuthCredentialsQuietly sNoToken).trace.diskWrites = 0 ∧
    (loadOAuthCredentialsQuietly sNoToken).state = sNoToken :=
  loadOAuthQuietly_expiring_no_token sNoToken rStaleNoToken (by rfl)
    (by decide) (by rfl)

end McpGdrive
